import Mathlib

/-!
Verification of the order-preserving YAML dumper layer of this repository
(src/salt/utils/yamldumper.py) and the LDAP attribute-value set
(src/salt/utils/ldap.py).

The dumper classes delegate most work to the external PyYAML library
(yaml/representer.py, yaml/emitter.py, yaml/__init__.py); the parts of that
library that the dumper classes configure and override are embedded here
from the PyYAML sources, restricted to the universe of document values used
by the properties under scrutiny.  The registry-inheritance mechanism
(salt.utils._yaml_common.InheritMapMixin) is not among the provided source
files, so it is modelled from the specification (section 4.3).
-/

/-- A dispatch key of a representer registry.  PyYAML keys its
`yaml_representers` / `yaml_multi_representers` class dictionaries by a
Python type object, or by `None` for the catch-all default entry
(`defaultKey` here).  Types that carry no registration in any modelled
configuration are collapsed into `tOther name`. -/
inductive TypeKey where
  | tNoneType
  | tBool
  | tInt
  | tStr
  | tList
  | tTuple
  | tDict
  | tOrderedDict
  | tDefaultDict
  | tNamespacedDictWrapper
  | tObject
  | tOther (name : String)
  | defaultKey
deriving DecidableEq

/-- The encoding functions (representers) that appear in the modelled
registries: PyYAML `SafeRepresenter` / `Representer` methods plus the two
`_CommonMixin` methods of src/salt/utils/yamldumper.py. -/
inductive RepFn where
  | represent_none
  | represent_str
  | represent_bool
  | represent_int
  | represent_list
  | represent_dict
  | represent_tuple
  | represent_ordered_dict
  | represent_object
  | represent_undefined
  | rep_default
  | rep_ordereddict
deriving DecidableEq

/-- A pair of representer registries, mirroring the two class attributes
`yaml_representers` (exact-type dispatch) and `yaml_multi_representers`
(subtype dispatch) that `_InheritedRepresentersMixin` inherits
(src/salt/utils/yamldumper.py lines 35-42). -/
structure Regs where
  exact : List (TypeKey × RepFn)
  multi : List (TypeKey × RepFn)
deriving DecidableEq

/-- Registry lookup; the first matching entry wins, so that prepending a new
entry overwrites an older one for the same key, as assigning into a Python
dict copy does. -/
def lookupReg (reg : List (TypeKey × RepFn)) (k : TypeKey) : Option RepFn :=
  match reg with
  | [] => none
  | (k2, f) :: rest => if k2 = k then some f else lookupReg rest k

/-- Modelled from the spec: `salt.utils._yaml_common.InheritMapMixin` is not
among the provided sources.  Spec section 4.3: the effective registry of a
configuration merges the parents' effective registries in declaration order
(later parents overwrite earlier ones on key collision) and then overlays the
configuration's own entries, which always win.  With first-match lookup this
is: own entries, then the parents' entries in reversed order. -/
def effectiveMulti (parentEffs : List Regs) (own : Regs) : Regs :=
  { exact := own.exact ++ (parentEffs.reverse.map Regs.exact).flatten
    multi := own.multi ++ (parentEffs.reverse.map Regs.multi).flatten }

/-- Modelled from the spec: registering a representer for a type key in a
configuration's local registry (PyYAML `add_representer` assigns into the
class-local dict copy; the new entry shadows any older local entry and any
parent entry). -/
def Regs.registerExact (r : Regs) (k : TypeKey) (f : RepFn) : Regs :=
  { r with exact := (k, f) :: r.exact }

/-- An empty pair of registries (the state of a class that registers
nothing of its own). -/
def emptyRegs : Regs := { exact := [], multi := [] }

/-- The registrations of PyYAML `SafeRepresenter` (yaml/representer.py lines
233-270), restricted to the modelled type universe; entries for types outside
it (bytes, float, set, datetime) are omitted, no claim concerns them.  The
final entry keyed by `None` is `represent_undefined`, which raises. -/
def safeRepresenterRegs : Regs :=
  { exact := [
      (.tNoneType, .represent_none),
      (.tStr, .represent_str),
      (.tBool, .represent_bool),
      (.tInt, .represent_int),
      (.tList, .represent_list),
      (.tTuple, .represent_list),
      (.tDict, .represent_dict),
      (.defaultKey, .represent_undefined)]
    multi := [] }

/-- The additional registrations of PyYAML `Representer` (yaml/representer.py
lines 366-388) on top of `SafeRepresenter`: `tuple` and
`collections.OrderedDict` exact entries, and the multi entry for `object`
that matches every value.  Entries for complex, functions and modules are
omitted (outside the modelled universe). -/
def fullRepresenterRegs : Regs :=
  effectiveMulti [safeRepresenterRegs]
    { exact := [
        (.tTuple, .represent_tuple),
        (.tOrderedDict, .represent_ordered_dict)]
      multi := [(.tObject, .represent_object)] }

/-- The registrations performed on `_CommonMixin`
(src/salt/utils/yamldumper.py lines 69-77): the catch-all default entry
`_rep_default`, `OrderedDict` mapped to `_rep_ordereddict`, and
`defaultdict` and `NamespacedDictWrapper` mapped to PyYAML
`SafeRepresenter.represent_dict`. -/
def commonMixinRegs : Regs :=
  effectiveMulti []
    { exact := [
        (.defaultKey, .rep_default),
        (.tOrderedDict, .rep_ordereddict),
        (.tDefaultDict, .represent_dict),
        (.tNamespacedDictWrapper, .represent_dict)]
      multi := [] }

/-- Effective registries of `SafeOrderedDumper(_CommonMixin, SafeDumper)`
(src/salt/utils/yamldumper.py line 86): parents listed in increasing
precedence, `_CommonMixin` entries shadow `SafeDumper` entries per the class
MRO. -/
def safeOrderedRegs : Regs :=
  effectiveMulti [safeRepresenterRegs, commonMixinRegs] emptyRegs

/-- Effective registries of `OrderedDumper(_CommonMixin, Dumper)`
(src/salt/utils/yamldumper.py line 80). -/
def orderedRegs : Regs :=
  effectiveMulti [fullRepresenterRegs, commonMixinRegs] emptyRegs

/-- Effective registries of `IndentedSafeOrderedDumper(SafeOrderedDumper)`
(src/salt/utils/yamldumper.py line 92): no representers of its own. -/
def indentedSafeRegs : Regs :=
  effectiveMulti [safeOrderedRegs] emptyRegs

/-- Effective registries of plain `yaml.Dumper`, the default dumper of
`yaml.dump` (yaml/__init__.py line 248). -/
def plainRegs : Regs := fullRepresenterRegs

/-- The method resolution order of each modelled type, as used by
`BaseRepresenter.represent_data` (yaml/representer.py line 46):
`type(data).__mro__`.  `bool` subclasses `int`; `OrderedDict` and
`defaultdict` subclass `dict`; everything ends at `object`. -/
def mro : TypeKey → List TypeKey
  | .tNoneType => [.tNoneType, .tObject]
  | .tBool => [.tBool, .tInt, .tObject]
  | .tInt => [.tInt, .tObject]
  | .tStr => [.tStr, .tObject]
  | .tList => [.tList, .tObject]
  | .tTuple => [.tTuple, .tObject]
  | .tDict => [.tDict, .tObject]
  | .tOrderedDict => [.tOrderedDict, .tDict, .tObject]
  | .tDefaultDict => [.tDefaultDict, .tDict, .tObject]
  | .tNamespacedDictWrapper => [.tNamespacedDictWrapper, .tDict, .tObject]
  | .tObject => [.tObject]
  | .tOther name => [.tOther name, .tObject]
  | .defaultKey => []

/-- First multi-representer matching a type in MRO order
(yaml/representer.py lines 50-53). -/
def firstMultiMatch (multi : List (TypeKey × RepFn)) : List TypeKey → Option RepFn
  | [] => none
  | t :: ts =>
    match lookupReg multi t with
    | some f => some f
    | none => firstMultiMatch multi ts

/-- The representer-selection logic of `BaseRepresenter.represent_data`
(yaml/representer.py lines 46-60): exact type first, then the MRO walk over
the multi registry, then the `None` key of the multi registry, then the
`None` key of the exact registry; `none` means the final
`ScalarNode(None, str(data))` fallback. -/
def dispatchRep (regs : Regs) (tk : TypeKey) : Option RepFn :=
  match lookupReg regs.exact tk with
  | some f => some f
  | none =>
    match firstMultiMatch regs.multi (mro tk) with
    | some f => some f
    | none =>
      match lookupReg regs.multi .defaultKey with
      | some f => some f
      | none => lookupReg regs.exact .defaultKey

/-- The universe of document values the claims quantify over.  `vother name`
is an instance of an arbitrary type with no registered representer
(an object of class `name`). -/
inductive Value where
  | vnone
  | vbool (b : Bool)
  | vint (n : Int)
  | vstr (s : String)
  | vlist (items : List Value)
  | vdict (pairs : List (Value × Value))
  | vordereddict (pairs : List (Value × Value))
  | vother (name : String)

/-- The Python type of a value, as a dispatch key. -/
def typeKeyOf : Value → TypeKey
  | .vnone => .tNoneType
  | .vbool _ => .tBool
  | .vint _ => .tInt
  | .vstr _ => .tStr
  | .vlist _ => .tList
  | .vdict _ => .tDict
  | .vordereddict _ => .tOrderedDict
  | .vother name => .tOther name

/-- A YAML representation node (yaml/nodes.py): a scalar with a tag and
text, or a sequence / mapping with a tag and a flow-vs-block style flag.
Scalar style is always the default in the modelled slice, so it is not
carried. -/
inductive Node where
  | scalar (tag : String) (text : String)
  | sequence (tag : String) (items : List Node) (flow : Bool)
  | mapping (tag : String) (pairs : List (Node × Node)) (flow : Bool)

/-- Whether a node is a (default-style) scalar, the test used by the
`best_style` computation in `represent_sequence` / `represent_mapping`
(yaml/representer.py lines 93 and 119-122). -/
def Node.isScalar : Node → Bool
  | .scalar _ _ => true
  | _ => false

/-- The flow style stored on a freshly built collection node
(yaml/representer.py lines 96-100 and 124-128): the representers always call
with `flow_style=None`, so the node receives `default_flow_style` if that is
not `None`, else the computed `best_style`. -/
def flowFor (dfs : Option Bool) (best : Bool) : Bool :=
  match dfs with
  | some b => b
  | none => best

/-- Errors surfaced by the modelled dump pipeline. -/
inductive PyErr where
  | representerError
  | internalTypeError
  | typeErrorDuplicateDumperKw
deriving DecidableEq

/-- Sort key for an int-keyed mapping entry (total on entries whose key is
`vint`; only applied to such lists). -/
def keyInt (p : Value × Value) : Int :=
  match p.1 with
  | .vint n => n
  | _ => 0

/-- Sort key for a str-keyed mapping entry. -/
def keyStr (p : Value × Value) : String :=
  match p.1 with
  | .vstr s => s
  | _ => ""

/-- Whether every key of the pair list is an int. -/
def allIntKeys (pairs : List (Value × Value)) : Bool :=
  pairs.all fun p =>
    match p.1 with
    | .vint _ => true
    | _ => false

/-- Whether every key of the pair list is a str. -/
def allStrKeys (pairs : List (Value × Value)) : Bool :=
  pairs.all fun p =>
    match p.1 with
    | .vstr _ => true
    | _ => false

/-- The `mapping = sorted(mapping)` step of `represent_mapping`
(yaml/representer.py lines 111-115), which runs only when the argument has
an `items` attribute (a dict) and `sort_keys` is set (the default; no caller
in this repository overrides it).  CPython sorts the (key, value) tuples and
falls back to the unsorted list when a comparison raises TypeError; this is
modelled as: sort when all keys are ints or all keys are strs (dict keys are
distinct, so the comparison never reaches the values), otherwise keep the
insertion order.  Every mapping appearing in a claim has at most one key or
homogeneous scalar keys, where this model is exact. -/
def trySortPairs (pairs : List (Value × Value)) : List (Value × Value) :=
  if allIntKeys pairs then
    List.insertionSort (fun a b => keyInt a ≤ keyInt b) pairs
  else if allStrKeys pairs then
    List.insertionSort (fun a b => keyStr a ≤ keyStr b) pairs
  else pairs

theorem perm_trySortPairs (pairs : List (Value × Value)) :
    List.Perm (trySortPairs pairs) pairs := by
  unfold trySortPairs
  split
  · exact List.perm_insertionSort _ _
  · split
    · exact List.perm_insertionSort _ _
    · exact List.Perm.refl _

theorem sizeOf_eq_of_perm {α : Type} [SizeOf α] {l1 l2 : List α}
    (h : List.Perm l1 l2) : sizeOf l1 = sizeOf l2 := by
  induction h with
  | nil => rfl
  | cons x _ ih => simp [ih]
  | swap x y l => simp; omega
  | trans _ _ ih1 ih2 => omega

theorem sizeOf_trySortPairs (pairs : List (Value × Value)) :
    sizeOf (trySortPairs pairs) = sizeOf pairs :=
  sizeOf_eq_of_perm (perm_trySortPairs pairs)

/-- The `str(data)` text of the final `ScalarNode(None, str(data))` fallback
of `represent_data` (yaml/representer.py line 60).  That fallback is dead
code for every modelled dumper configuration (each has either a catch-all
default entry or the `object` multi entry), so only the scalar cases matter;
container reprs are abbreviated. -/
def pyStr : Value → String
  | .vnone => "None"
  | .vbool b => if b then "True" else "False"
  | .vint n => toString n
  | .vstr s => s
  | .vlist _ => "[...]"
  | .vdict _ => "\x7b...\x7d"
  | .vordereddict _ => "OrderedDict(...)"
  | .vother name => "<" ++ name ++ " object>"

mutual

/-- `BaseRepresenter.represent_data` (yaml/representer.py lines 33-63)
specialised to a fixed registry pair, followed by the body of the selected
representer.  Aliasing state (`represented_objects`) is omitted: inductive
values have no object identity, so this models documents in which no
container object occurs twice (cyclic documents are modelled separately).
The representer bodies:
 * `represent_none` .. `represent_int`: yaml/representer.py lines 144-165;
 * `represent_list` -> `represent_sequence`: lines 85-101 and 191-199;
 * `represent_dict` -> `represent_mapping` on a dict (has `items`, so the
   sort step runs): lines 103-129 and 206-207;
 * `_rep_ordereddict` (src/salt/utils/yamldumper.py lines 49-50) calls
   `represent_dict(list(data.items()))`: the argument is a list, it has no
   `items` attribute, so `represent_mapping` skips the sort and keeps the
   iteration order;
 * `represent_ordered_dict` (yaml/representer.py lines 358-364) builds
   `[[key, value], ...]` and wraps it in one more list; the inner lists are
   plain Python lists, which every configuration carrying this entry
   dispatches to `represent_list`, so their sequence nodes are built
   directly here;
 * `represent_object` (lines 296-356) applied to a plain object with empty
   state reduces to `represent_mapping('tag:yaml.org,2002:python/object:'
   + class name, {})`;
 * `represent_undefined` (lines 230-231) raises RepresenterError;
 * `_rep_default` (src/salt/utils/yamldumper.py lines 52-64) produces
   `represent_scalar('tag:yaml.org,2002:null', 'NULL')`.
A selected representer never sees a value of a foreign type under the
dispatch rules, so those unreachable combinations answer
`internalTypeError`. -/
def representData (regs : Regs) (dfs : Option Bool) (v : Value) :
    Except PyErr Node :=
  match dispatchRep regs (typeKeyOf v) with
  | none => .ok (.scalar "" (pyStr v))
  | some .represent_none =>
    match v with
    | .vnone => .ok (.scalar "tag:yaml.org,2002:null" "null")
    | _ => .error .internalTypeError
  | some .represent_str =>
    match v with
    | .vstr s => .ok (.scalar "tag:yaml.org,2002:str" s)
    | _ => .error .internalTypeError
  | some .represent_bool =>
    match v with
    | .vbool b =>
      .ok (.scalar "tag:yaml.org,2002:bool" (if b then "true" else "false"))
    | _ => .error .internalTypeError
  | some .represent_int =>
    match v with
    | .vint n => .ok (.scalar "tag:yaml.org,2002:int" (toString n))
    | _ => .error .internalTypeError
  | some .represent_list =>
    match v with
    | .vlist items => do
      let nodes ← representSeq regs dfs items
      .ok (.sequence "tag:yaml.org,2002:seq" nodes
        (flowFor dfs (nodes.all Node.isScalar)))
    | _ => .error .internalTypeError
  | some .represent_dict =>
    match v with
    | .vdict pairs => do
      let npairs ← representPairs regs dfs (trySortPairs pairs)
      .ok (.mapping "tag:yaml.org,2002:map" npairs
        (flowFor dfs (npairs.all fun p => p.1.isScalar && p.2.isScalar)))
    | _ => .error .internalTypeError
  | some .represent_tuple => .error .internalTypeError
  | some .represent_ordered_dict =>
    match v with
    | .vordereddict pairs => do
      let npairs ← representPairs regs dfs pairs
      let inner := npairs.map fun p =>
        Node.sequence "tag:yaml.org,2002:seq" [p.1, p.2]
          (flowFor dfs (p.1.isScalar && p.2.isScalar))
      let middle := Node.sequence "tag:yaml.org,2002:seq" inner
        (flowFor dfs (inner.all Node.isScalar))
      .ok (.sequence
        "tag:yaml.org,2002:python/object/apply:collections.OrderedDict"
        [middle] (flowFor dfs false))
    | _ => .error .internalTypeError
  | some .represent_object =>
    match v with
    | .vother name =>
      .ok (.mapping ("tag:yaml.org,2002:python/object:" ++ name) []
        (flowFor dfs true))
    | _ => .error .internalTypeError
  | some .represent_undefined => .error .representerError
  | some .rep_default => .ok (.scalar "tag:yaml.org,2002:null" "NULL")
  | some .rep_ordereddict =>
    match v with
    | .vordereddict pairs => do
      let npairs ← representPairs regs dfs pairs
      .ok (.mapping "tag:yaml.org,2002:map" npairs
        (flowFor dfs (npairs.all fun p => p.1.isScalar && p.2.isScalar)))
    | _ => .error .internalTypeError
termination_by sizeOf v
decreasing_by
  all_goals simp_wf
  all_goals first
  | omega
  | (rw [sizeOf_trySortPairs]; omega)

/-- The item loop of `represent_sequence` (yaml/representer.py lines 91-95). -/
def representSeq (regs : Regs) (dfs : Option Bool) (items : List Value) :
    Except PyErr (List Node) :=
  match items with
  | [] => .ok []
  | x :: xs => do
    let n ← representData regs dfs x
    let ns ← representSeq regs dfs xs
    .ok (n :: ns)
termination_by sizeOf items
decreasing_by
  all_goals simp_wf
  all_goals omega

/-- The pair loop of `represent_mapping` (yaml/representer.py lines
116-123); the key is represented before the value, in list order. -/
def representPairs (regs : Regs) (dfs : Option Bool)
    (pairs : List (Value × Value)) : Except PyErr (List (Node × Node)) :=
  match pairs with
  | [] => .ok []
  | (k, v) :: rest => do
    let nk ← representData regs dfs k
    let nv ← representData regs dfs v
    let nrest ← representPairs regs dfs rest
    .ok ((nk, nv) :: nrest)
termination_by sizeOf pairs
decreasing_by
  all_goals simp_wf
  all_goals omega

end

/-- One physical output line: an indentation column and the text written
after it.  The emitter writes `write_indent()` (spaces up to the current
indent) followed by indicators and scalar content. -/
structure OutLine where
  indent : Nat
  content : String
deriving DecidableEq

mutual

/-- Inline (flow style) rendering of a node, the shape PyYAML's flow
handlers (yaml/emitter.py lines 274-367) produce for short all-scalar
collections on one line.  Tags of the modelled plain scalars resolve
implicitly and are not written.  The slice covers the documents appearing
in the claims: plain scalars and collections of them. -/
def flowRender : Node → String
  | .scalar _ t => t
  | .sequence _ items _ => "[" ++ flowRenderList items ++ "]"
  | .mapping _ pairs _ => "\x7b" ++ flowRenderPairs pairs ++ "\x7d"

/-- Comma-separated flow items. -/
def flowRenderList : List Node → String
  | [] => ""
  | [n] => flowRender n
  | n :: rest => flowRender n ++ ", " ++ flowRenderList rest

/-- Comma-separated flow `key: value` entries. -/
def flowRenderPairs : List (Node × Node) → String
  | [] => ""
  | [(k, v)] => flowRender k ++ ": " ++ flowRender v
  | (k, v) :: rest =>
    flowRender k ++ ": " ++ flowRender v ++ ", " ++ flowRenderPairs rest

end

/-- Whether the emitter chooses flow style for a collection node: its own
flow flag, or forced flow for an empty collection
(yaml/emitter.py lines 245-256, `check_empty_sequence` /
`check_empty_mapping`). -/
def emitsFlow : Node → Bool
  | .scalar _ _ => false
  | .sequence _ items flow => flow || items.isEmpty
  | .mapping _ pairs flow => flow || pairs.isEmpty

mutual

/-- Block-style emission of a node as output lines, the slice of PyYAML's
emitter state machine (yaml/emitter.py) reached by the modelled documents.
`extra` is true for `IndentedSafeOrderedDumper`, whose `increase_indent`
override (src/salt/utils/yamldumper.py lines 95-96) forces
`indentless=False`.  The root starts at indent 0 (`increase_indent` lines
146-154: first increase from `None` gives 0 for block context). -/
def blockLines (extra : Bool) (ind : Nat) (n : Node) : List OutLine :=
  match n with
  | .scalar _ t => [⟨ind, t⟩]
  | .sequence tag items flow =>
    if flow || items.isEmpty then [⟨ind, flowRender (.sequence tag items flow)⟩]
    else seqItemsLines extra ind items
  | .mapping tag pairs flow =>
    if flow || pairs.isEmpty then [⟨ind, flowRender (.mapping tag pairs flow)⟩]
    else mapPairsLines extra ind pairs
termination_by sizeOf n
decreasing_by
  all_goals simp_wf
  all_goals omega

/-- Items of a block sequence: each item line starts with the `-` indicator
(yaml/emitter.py lines 376-385).  A nested block collection continues on
the same line as its first content line, indented one more level
(the compact block form). -/
def seqItemsLines (extra : Bool) (ind : Nat) (items : List Node) :
    List OutLine :=
  match items with
  | [] => []
  | n :: rest =>
    (match blockLines extra (ind + 2) n with
     | [] => [⟨ind, "-"⟩]
     | first :: moreLines => ⟨ind, "- " ++ first.content⟩ :: moreLines) ++
    seqItemsLines extra ind rest
termination_by sizeOf items
decreasing_by
  all_goals simp_wf
  all_goals omega

/-- Entries of a block mapping (yaml/emitter.py lines 386-440 for the
simple-key case).  A scalar or flow value follows the key on the same
line; a non-empty block sequence value goes on the following lines, at the
same indent as the key when `indentless` (emitter.py lines 368-370:
`mapping_context and not indention` holds there), one level deeper when the
`IndentedSafeOrderedDumper` override forces indentation; a non-empty block
mapping value goes one level deeper. -/
def mapPairsLines (extra : Bool) (ind : Nat) (pairs : List (Node × Node)) :
    List OutLine :=
  match pairs with
  | [] => []
  | (k, v) :: rest =>
    (let kt := match k with
      | .scalar _ t => t
      | other => flowRender other
     match v with
     | .scalar _ t => [⟨ind, kt ++ ": " ++ t⟩]
     | .sequence tag items flow =>
       if flow || items.isEmpty then
         [⟨ind, kt ++ ": " ++ flowRender (.sequence tag items flow)⟩]
       else
         ⟨ind, kt ++ ":"⟩ ::
           seqItemsLines extra (if extra then ind + 2 else ind) items
     | .mapping tag mpairs flow =>
       if flow || mpairs.isEmpty then
         [⟨ind, kt ++ ": " ++ flowRender (.mapping tag mpairs flow)⟩]
       else
         ⟨ind, kt ++ ":"⟩ :: mapPairsLines extra (ind + 2) mpairs) ++
    mapPairsLines extra ind rest
termination_by sizeOf pairs
decreasing_by
  all_goals simp_wf
  all_goals omega

end

/-- Spaces of an indentation column. -/
def indentStr (n : Nat) : String := String.mk (List.replicate n ' ')

/-- Render one output line. -/
def renderLine (l : OutLine) : String := indentStr l.indent ++ l.content

/-- Join the output lines into the final text (each line newline
terminated, as the emitter leaves the stream). -/
def renderLines (ls : List OutLine) : String :=
  String.intercalate "\n" (ls.map renderLine) ++ "\n"

/-- The dumper classes of src/salt/utils/yamldumper.py, plus plain
`yaml.Dumper`, the library default that `yaml.dump` falls back to when the
caller does not pass a `Dumper` keyword. -/
inductive DumperKind where
  | OrderedDumper
  | SafeOrderedDumper
  | IndentedSafeOrderedDumper
  | PlainDumper
deriving DecidableEq

/-- The effective representer registries of each dumper class. -/
def regsOf : DumperKind → Regs
  | .OrderedDumper => orderedRegs
  | .SafeOrderedDumper => safeOrderedRegs
  | .IndentedSafeOrderedDumper => indentedSafeRegs
  | .PlainDumper => plainRegs

/-- Whether the dumper forces indentation of block sequences nested in
block mappings: only `IndentedSafeOrderedDumper` overrides
`increase_indent` to pass `indentless=False`
(src/salt/utils/yamldumper.py lines 92-96). -/
def extraIndentOf : DumperKind → Bool
  | .IndentedSafeOrderedDumper => true
  | _ => false

/-- Representation phase of a dump: `Dumper.represent(data)`
(yaml/representer.py lines 26-31) builds the node tree. -/
def yamlDumpNode (d : DumperKind) (dfs : Option Bool) (v : Value) :
    Except PyErr Node :=
  representData (regsOf d) dfs v

/-- Representation plus block emission, as output lines. -/
def dumpLines (d : DumperKind) (dfs : Option Bool) (v : Value) :
    Except PyErr (List OutLine) :=
  (yamlDumpNode d dfs v).map (blockLines (extraIndentOf d) 0)

/-- Full serialization to text (stream `None`, so the text is returned). -/
def yamlDumpText (d : DumperKind) (dfs : Option Bool) (v : Value) :
    Except PyErr String :=
  (dumpLines d dfs v).map renderLines

/-- `get_dumper` (src/salt/utils/yamldumper.py lines 99-104): a dict
literal of the three class names, queried with `.get`, which yields
`None` (here `none`) for any other name. -/
def get_dumper (dumper_name : String) : Option DumperKind :=
  if dumper_name = "OrderedDumper" then some .OrderedDumper
  else if dumper_name = "SafeOrderedDumper" then some .SafeOrderedDumper
  else if dumper_name = "IndentedSafeOrderedDumper" then
    some .IndentedSafeOrderedDumper
  else none

/-- The keyword arguments of `dump` / `safe_dump` that the modelled
pipeline consumes.  `none` in a field means the caller did not pass that
keyword.  `default_flow_style` is itself an `Option Bool` in PyYAML
(`None` = choose per node best style). -/
structure KwArgs where
  Dumper : Option DumperKind
  allow_unicode : Option Bool
  default_flow_style : Option (Option Bool)
deriving DecidableEq

/-- `yaml.dump(data, stream, **kwargs)` (yaml/__init__.py lines 215-253):
the `Dumper` keyword defaults to plain `yaml.Dumper` and
`default_flow_style` defaults to `False`.  `allow_unicode` only affects
escaping of non-ASCII characters, which the modelled ASCII documents never
contain, so it is accepted and ignored. -/
def pyYamlDump (data : Value) (kwargs : KwArgs) : Except PyErr String :=
  yamlDumpText (kwargs.Dumper.getD .PlainDumper)
    (kwargs.default_flow_style.getD (some false)) data

/-- `dump` (src/salt/utils/yamldumper.py lines 107-116):
`kwargs.setdefault("allow_unicode", True)`,
`kwargs.setdefault("default_flow_style", None)`, then
`yaml.dump(data, stream, **kwargs)`. -/
def dump (data : Value) (kwargs : KwArgs) : Except PyErr String :=
  pyYamlDump data
    { kwargs with
      allow_unicode := some (kwargs.allow_unicode.getD true)
      default_flow_style := some (kwargs.default_flow_style.getD none) }

/-- `safe_dump` (src/salt/utils/yamldumper.py lines 119-125):
`dump(data, stream, Dumper=SafeOrderedDumper, **kwargs)`.  When the caller
also passes a `Dumper` keyword, the Python call itself raises
`TypeError: got multiple values for keyword argument` before `dump` runs;
otherwise `SafeOrderedDumper` is passed down. -/
def safe_dump (data : Value) (kwargs : KwArgs) : Except PyErr String :=
  if kwargs.Dumper.isSome then .error .typeErrorDuplicateDumperKw
  else dump data { kwargs with Dumper := some .SafeOrderedDumper }

/-- Modelled from the spec: `salt.utils.oset.OrderedSet` is not among the
provided sources; per the spec and the `AttributeValueSet` docstring it is
an insertion-ordered set, so constructing one from a sequence keeps the
first occurrence of each element in encounter order.  The resulting list is
the iteration order of the set. -/
def avsOfList {α : Type} [DecidableEq α] (xs : List α) : List α :=
  xs.foldl (fun acc x => if x ∈ acc then acc else acc ++ [x]) []

/-- The right-hand operand of `AttributeValueSet.__eq__`: Python `None`, or
an iterable container of elements (another `AttributeValueSet`, a plain
list, tuple or set — `set(other)` only requires iterability).  Non-iterable
operands are outside the claims' scope (Python would raise TypeError in
`set(other)`). -/
inductive PyOperand (α : Type) where
  | pyNone
  | avset (elems : List α)
  | plainList (elems : List α)
  | plainTuple (elems : List α)

/-- The element list of a container operand. -/
def PyOperand.elemsOf {α : Type} : PyOperand α → List α
  | .pyNone => []
  | .avset es => es
  | .plainList es => es
  | .plainTuple es => es

/-- `AttributeValueSet.__eq__` (src/salt/utils/ldap.py lines 26-31):
`None` compares false; otherwise `set(self) == set(other)`.  The `other is
self` identity fast path returns `True`, which coincides with the set
comparison of a container with itself, so it needs no separate state in a
model without object identity. -/
def avs_eq {α : Type} [DecidableEq α] (self : List α) (other : PyOperand α) :
    Bool :=
  match other with
  | .pyNone => false
  | other => self.toFinset = other.elemsOf.toFinset

/-- Heap objects, for documents with object identity and possible cycles: a
value is a heap of numbered objects and a root id (Python id()-keyed, as
`represent_data` uses `self.alias_key = id(data)`).  Ints are scalars that
`SafeRepresenter.ignore_aliases` excludes from aliasing; lists hold
references to other heap objects. -/
inductive HObj where
  | hint (n : Int)
  | hlist (refs : List Nat)
deriving DecidableEq

/-- Association lookup of a heap object by id. -/
def lookupHeap (heap : List (Nat × HObj)) (i : Nat) : Option HObj :=
  match heap with
  | [] => none
  | (j, o) :: rest => if j = i then some o else lookupHeap rest i

/-- Graph representation nodes: a re-encountered object (its id already in
`represented_objects`) is returned as the already-registered node, which
the serializer then emits as an anchor/alias pair; `galias` records that
re-encounter.  Sequence nodes carry the id that anchors them. -/
inductive GNode where
  | gscalar (tag : String) (text : String)
  | galias (id : Nat)
  | gseq (id : Nat) (items : List GNode)

mutual

/-- `represent_data` over a heap, with the `represented_objects` memo
(yaml/representer.py lines 33-45 and 85-101): scalars are never aliased;
for a list, the node is registered under the object's id before the items
are represented, so a self-reference encountered below returns an alias to
it instead of recursing.  `fuel` bounds the descent so the function is
total on arbitrary heaps; each claim instantiates it with enough fuel for
its heap, and running out yields `none`. -/
def reprG (heap : List (Nat × HObj)) (fuel : Nat) (represented : List Nat)
    (i : Nat) : Option (GNode × List Nat) :=
  match fuel with
  | 0 => none
  | fuel + 1 =>
    match lookupHeap heap i with
    | none => none
    | some (.hint n) => some (.gscalar "tag:yaml.org,2002:int" (toString n), represented)
    | some (.hlist refs) =>
      if i ∈ represented then some (.galias i, represented)
      else
        match reprGList heap fuel (i :: represented) refs with
        | none => none
        | some (items, rep2) => some (.gseq i items, rep2)
termination_by (fuel, 0)

/-- The item loop of `represent_sequence` over a heap, threading the memo
left to right. -/
def reprGList (heap : List (Nat × HObj)) (fuel : Nat) (represented : List Nat)
    (refs : List Nat) : Option (List GNode × List Nat) :=
  match refs with
  | [] => some ([], represented)
  | r :: rest =>
    match reprG heap fuel represented r with
    | none => none
    | some (n, rep2) =>
      match reprGList heap fuel rep2 rest with
      | none => none
      | some (ns, rep3) => some (n :: ns, rep3)
termination_by (fuel, refs.length + 1)

end

theorem exceptBind_ok {ε α β : Type} (a : α) (f : α → Except ε β) :
    (Except.ok a >>= f : Except ε β) = f a := rfl

theorem exceptBind_error {ε α β : Type} (e : ε) (f : α → Except ε β) :
    (Except.error e >>= f : Except ε β) = Except.error e := rfl

/-- C1: a value of a type with no registered representer dispatches to
neither an exact nor a multi entry of the safe ordered dumper's registries;
it falls through to the catch-all entry (`_rep_default`, registered under
the `None` key), which yields a scalar node tagged with the canonical null
tag and literal text NULL, and the whole `safe_dump` call succeeds instead
of raising. -/
theorem c1_unregistered_type_serializes_to_null_scalar
    (name : String) (dfs : Option Bool) :
    lookupReg safeOrderedRegs.exact (.tOther name) = none ∧
    firstMultiMatch safeOrderedRegs.multi (mro (.tOther name)) = none ∧
    representData safeOrderedRegs dfs (.vother name) =
      .ok (.scalar "tag:yaml.org,2002:null" "NULL") ∧
    safe_dump (.vother name) ⟨none, none, none⟩ = .ok "NULL\n" := by
  refine ⟨?_, ?_, ?_, ?_⟩
  · simp [safeOrderedRegs, effectiveMulti, commonMixinRegs, safeRepresenterRegs,
      emptyRegs, lookupReg]
  · simp [safeOrderedRegs, effectiveMulti, commonMixinRegs, safeRepresenterRegs,
      emptyRegs, lookupReg, firstMultiMatch, mro]
  · simp [representData, dispatchRep, typeKeyOf, lookupReg, safeOrderedRegs,
      effectiveMulti, commonMixinRegs, safeRepresenterRegs, emptyRegs,
      firstMultiMatch, mro]
  · simp [safe_dump, dump, pyYamlDump, yamlDumpText, dumpLines, yamlDumpNode,
      representData, dispatchRep, typeKeyOf, lookupReg, safeOrderedRegs,
      effectiveMulti, commonMixinRegs, safeRepresenterRegs, emptyRegs,
      firstMultiMatch, mro, regsOf, extraIndentOf]
    simp [Except.map, blockLines]
    rfl

theorem representPairs_ok_forall2 (regs : Regs) (dfs : Option Bool) :
    ∀ (kvs : List (Value × Value)) (nps : List (Node × Node)),
    representPairs regs dfs kvs = .ok nps →
    List.Forall₂ (fun (kv : Value × Value) (np : Node × Node) =>
      representData regs dfs kv.1 = .ok np.1 ∧
      representData regs dfs kv.2 = .ok np.2) kvs nps := by
  intro kvs
  induction kvs with
  | nil =>
    intro nps h
    rw [representPairs] at h
    simp only [Except.ok.injEq] at h
    subst h
    exact List.Forall₂.nil
  | cons kv rest ih =>
    intro nps h
    obtain ⟨k, v⟩ := kv
    rw [representPairs] at h
    cases hk : representData regs dfs k with
    | error e => rw [hk] at h; rw [exceptBind_error] at h; exact absurd h (by simp)
    | ok nk =>
      rw [hk] at h
      cases hv : representData regs dfs v with
      | error e => rw [hv] at h; rw [exceptBind_ok, exceptBind_error] at h; exact absurd h (by simp)
      | ok nv =>
        rw [hv] at h
        cases hr : representPairs regs dfs rest with
        | error e => rw [hr] at h; rw [exceptBind_ok, exceptBind_ok, exceptBind_error] at h; exact absurd h (by simp)
        | ok nrest =>
          rw [hr] at h
          rw [exceptBind_ok, exceptBind_ok, exceptBind_ok] at h
          simp only [Except.ok.injEq] at h
          subst h
          exact List.Forall₂.cons ⟨hk, hv⟩ (ih nrest hr)

/-- C2: both ordered dumpers resolve `OrderedDict` to `_rep_ordereddict`,
and representing an ordered mapping yields a mapping node whose pairs are
exactly the images of the value pairs, aligned index by index in the
mapping's iteration order, for every list of entries (in particular for
every insertion order) — the sort step of `represent_mapping` is bypassed
because `_rep_ordereddict` passes a list. -/
theorem c2_ordereddict_mapping_preserves_insertion_order
    (dfs : Option Bool) (kvs : List (Value × Value))
    (npairs : List (Node × Node))
    (h : representPairs safeOrderedRegs dfs kvs = .ok npairs) :
    lookupReg safeOrderedRegs.exact .tOrderedDict = some .rep_ordereddict ∧
    lookupReg orderedRegs.exact .tOrderedDict = some .rep_ordereddict ∧
    representData safeOrderedRegs dfs (.vordereddict kvs) =
      .ok (.mapping "tag:yaml.org,2002:map" npairs
        (flowFor dfs (npairs.all fun p => p.1.isScalar && p.2.isScalar))) ∧
    List.Forall₂ (fun (kv : Value × Value) (np : Node × Node) =>
      representData safeOrderedRegs dfs kv.1 = .ok np.1 ∧
      representData safeOrderedRegs dfs kv.2 = .ok np.2) kvs npairs := by
  refine ⟨by decide, by decide, ?_, representPairs_ok_forall2 _ _ _ _ h⟩
  rw [representData]
  have hd : dispatchRep safeOrderedRegs TypeKey.tOrderedDict =
      some .rep_ordereddict := by decide
  simp only [typeKeyOf]
  rw [hd, h]
  rfl

/-- C2 witness: a two-entry ordered mapping whose keys are in reverse
alphabetical order is represented with b before a — the insertion order,
not the sorted order. -/
theorem c2_ordereddict_mapping_preserves_insertion_order_witness :
    representPairs safeOrderedRegs none
      [(.vstr "b", .vint 2), (.vstr "a", .vint 1)] =
      .ok [(.scalar "tag:yaml.org,2002:str" "b", .scalar "tag:yaml.org,2002:int" "2"),
           (.scalar "tag:yaml.org,2002:str" "a", .scalar "tag:yaml.org,2002:int" "1")] ∧
    representData safeOrderedRegs none
      (.vordereddict [(.vstr "b", .vint 2), (.vstr "a", .vint 1)]) =
      .ok (.mapping "tag:yaml.org,2002:map"
        [(.scalar "tag:yaml.org,2002:str" "b", .scalar "tag:yaml.org,2002:int" "2"),
         (.scalar "tag:yaml.org,2002:str" "a", .scalar "tag:yaml.org,2002:int" "1")]
        true) := by
  have h : representPairs safeOrderedRegs none
      [(.vstr "b", .vint 2), (.vstr "a", .vint 1)] =
      .ok [(.scalar "tag:yaml.org,2002:str" "b", .scalar "tag:yaml.org,2002:int" "2"),
           (.scalar "tag:yaml.org,2002:str" "a", .scalar "tag:yaml.org,2002:int" "1")] := by
    simp [representPairs, representData, dispatchRep, typeKeyOf, lookupReg,
      safeOrderedRegs, effectiveMulti, commonMixinRegs, safeRepresenterRegs,
      emptyRegs, firstMultiMatch, mro]
    rfl
  refine ⟨h, ?_⟩
  have := (c2_ordereddict_mapping_preserves_insertion_order none _ _ h).2.2.1
  simpa [flowFor, Node.isScalar] using this

theorem avsFold_toFinset {α : Type} [DecidableEq α] (xs acc : List α) :
    (xs.foldl (fun acc x => if x ∈ acc then acc else acc ++ [x]) acc).toFinset
      = acc.toFinset ∪ xs.toFinset := by
  induction xs generalizing acc with
  | nil => simp
  | cons x rest ih =>
    simp only [List.foldl_cons]
    rw [ih]
    by_cases hx : x ∈ acc
    · simp only [if_pos hx]
      ext a
      simp only [Finset.mem_union, List.mem_toFinset, List.toFinset_cons,
        Finset.mem_insert]
      constructor
      · tauto
      · rintro (h | h | h)
        · exact Or.inl h
        · exact Or.inl (h ▸ hx)
        · exact Or.inr h
    · simp only [if_neg hx]
      ext a
      simp only [Finset.mem_union, List.mem_toFinset, List.mem_append,
        List.toFinset_cons, Finset.mem_insert, List.mem_singleton]
      tauto

theorem avsOfList_toFinset {α : Type} [DecidableEq α] (xs : List α) :
    (avsOfList xs).toFinset = xs.toFinset := by
  simp [avsOfList, avsFold_toFinset]

/-- C3: two attribute-value sets built from arbitrary element sequences
compare equal exactly when the unordered sets of their elements coincide,
independently of the two iteration (insertion) orders. -/
theorem c3_attribute_value_set_eq_iff_unordered_content_eq
    {α : Type} [DecidableEq α] (xs ys : List α) :
    avs_eq (avsOfList xs) (.avset (avsOfList ys)) = true ↔
      xs.toFinset = ys.toFinset := by
  simp [avs_eq, PyOperand.elemsOf, avsOfList_toFinset]

/-- C4: with the modelled inheritance resolver, a derived configuration
that registers nothing for a type key resolves it to the base's entry; a
derived configuration that registers its own entry resolves to that entry
while the base's effective registry still resolves to the base entry,
untouched by the derived registration. -/
theorem c4_derived_config_overrides_base_without_mutating_it
    (T : TypeKey) (f1 f2 : RepFn) :
    lookupReg (effectiveMulti
      [effectiveMulti [] (Regs.registerExact emptyRegs T f1)]
      emptyRegs).exact T = some f1 ∧
    lookupReg (effectiveMulti
      [effectiveMulti [] (Regs.registerExact emptyRegs T f1)]
      (Regs.registerExact emptyRegs T f2)).exact T = some f2 ∧
    lookupReg (effectiveMulti [] (Regs.registerExact emptyRegs T f1)).exact T
      = some f1 := by
  refine ⟨?_, ?_, ?_⟩ <;>
    simp [effectiveMulti, Regs.registerExact, emptyRegs, lookupReg]

/-- C5 counterexample: a caller that passes its own Dumper keyword to
`safe_dump` gets a duplicate-keyword TypeError, not a serialization under
the safe configuration, so the claim does not hold for every set of
caller-supplied options. -/
theorem c5_counterexample_dumper_kwarg_raises :
    safe_dump (.vint 1) ⟨some .OrderedDumper, none, none⟩ =
      .error .typeErrorDuplicateDumperKw := rfl

/-- C5 (amended): whenever the caller does not pass a Dumper keyword of its
own, `safe_dump` serializes with `SafeOrderedDumper`, whatever the other
style options are, and returns the serialized text. -/
theorem c5_safe_dump_forces_safe_ordered_dumper
    (v : Value) (kwargs : KwArgs) (h : kwargs.Dumper = none) :
    safe_dump v kwargs =
      yamlDumpText .SafeOrderedDumper (kwargs.default_flow_style.getD none) v := by
  obtain ⟨d, au, dfs⟩ := kwargs
  simp at h
  subst h
  simp [safe_dump, dump, pyYamlDump]

/-- C5 witness: the amended theorem at a concrete value and empty keyword
set. -/
theorem c5_safe_dump_forces_safe_ordered_dumper_witness :
    (KwArgs.mk none none none).Dumper = none ∧
    safe_dump (.vint 3) ⟨none, none, none⟩ =
      yamlDumpText .SafeOrderedDumper none (.vint 3) :=
  ⟨rfl, by simpa using
    c5_safe_dump_forces_safe_ordered_dumper (.vint 3) ⟨none, none, none⟩ rfl⟩

/-- C6 counterexample: `dump` without a Dumper keyword routes to plain
`yaml.Dumper`, which is not the ordered full dumper, and the two render an
ordered mapping to different nodes (a `python/object/apply` sequence versus
a plain map in insertion order), so the default configuration is not the
Full ordered-dumper configuration. -/
theorem c6_counterexample_default_dumper_not_ordered :
    dump (.vordereddict [(.vstr "a", .vint 1)]) ⟨none, none, none⟩ =
      yamlDumpText .PlainDumper none (.vordereddict [(.vstr "a", .vint 1)]) ∧
    DumperKind.PlainDumper ≠ DumperKind.OrderedDumper ∧
    yamlDumpNode .PlainDumper none (.vordereddict [(.vstr "a", .vint 1)]) ≠
      yamlDumpNode .OrderedDumper none (.vordereddict [(.vstr "a", .vint 1)]) := by
  refine ⟨rfl, by decide, ?_⟩
  simp [yamlDumpNode, regsOf, representData, representPairs, dispatchRep,
    typeKeyOf, lookupReg, plainRegs, orderedRegs, fullRepresenterRegs,
    safeRepresenterRegs, commonMixinRegs, effectiveMulti, emptyRegs,
    firstMultiMatch, mro, flowFor, Node.isScalar, exceptBind_ok]

/-- C6 (amended): `dump` called without an explicit Dumper keyword
serializes with PyYAML's default plain (non-safe, non-ordered)
`yaml.Dumper`. -/
theorem c6_default_dumper_is_plain_yaml_dumper
    (v : Value) (kwargs : KwArgs) (h : kwargs.Dumper = none) :
    dump v kwargs =
      yamlDumpText .PlainDumper (kwargs.default_flow_style.getD none) v := by
  obtain ⟨d, au, dfs⟩ := kwargs
  simp at h
  subst h
  simp [dump, pyYamlDump]

/-- C6 witness: the amended theorem at a concrete value and empty keyword
set. -/
theorem c6_default_dumper_is_plain_yaml_dumper_witness :
    (KwArgs.mk none none none).Dumper = none ∧
    dump (.vint 3) ⟨none, none, none⟩ =
      yamlDumpText .PlainDumper none (.vint 3) :=
  ⟨rfl, by simpa using
    c6_default_dumper_is_plain_yaml_dumper (.vint 3) ⟨none, none, none⟩ rfl⟩

theorem indentedSafeRegs_eq_safeOrderedRegs :
    indentedSafeRegs = safeOrderedRegs := by decide

theorem representSeq_ints (dfs : Option Bool) (xs : List Int) :
    representSeq safeOrderedRegs dfs (xs.map Value.vint) =
      .ok (xs.map fun n => Node.scalar "tag:yaml.org,2002:int" (toString n)) := by
  induction xs with
  | nil => simp [representSeq]
  | cons n rest ih =>
    rw [List.map_cons, representSeq]
    have hd : representData safeOrderedRegs dfs (.vint n) =
        .ok (.scalar "tag:yaml.org,2002:int" (toString n)) := by
      rw [representData]
      have : dispatchRep safeOrderedRegs TypeKey.tInt = some .represent_int := by
        decide
      simp only [typeKeyOf]
      rw [this]
    rw [hd, exceptBind_ok, ih, exceptBind_ok, List.map_cons]

theorem seqItemsLines_scalars (extra : Bool) (ind : Nat) (xs : List Int) :
    seqItemsLines extra ind
      (xs.map fun n => Node.scalar "tag:yaml.org,2002:int" (toString n)) =
      xs.map fun n => OutLine.mk ind ("- " ++ toString n) := by
  induction xs with
  | nil => simp [seqItemsLines]
  | cons n rest ih =>
    rw [List.map_cons, seqItemsLines, ih]
    rw [blockLines]
    simp

/-- C7: for any mapping holding a non-empty sequence of scalars under a
key, emitted in block style, the ordered safe dumper and the indented
variant build identical nodes, and the indented variant writes the
sequence's item lines at indentation column 2 (one `best_indent` level)
where the safe dumper writes them at column 0, the key's own column. -/
theorem c7_indented_safe_indents_one_extra_level
    (k : String) (xs : List Int) (hxs : xs ≠ []) :
    yamlDumpNode .IndentedSafeOrderedDumper (some false)
      (.vdict [(.vstr k, .vlist (xs.map .vint))]) =
      yamlDumpNode .SafeOrderedDumper (some false)
        (.vdict [(.vstr k, .vlist (xs.map .vint))]) ∧
    dumpLines .SafeOrderedDumper (some false)
      (.vdict [(.vstr k, .vlist (xs.map .vint))]) =
      .ok (OutLine.mk 0 (k ++ ":") ::
        xs.map fun n => OutLine.mk 0 ("- " ++ toString n)) ∧
    dumpLines .IndentedSafeOrderedDumper (some false)
      (.vdict [(.vstr k, .vlist (xs.map .vint))]) =
      .ok (OutLine.mk 0 (k ++ ":") ::
        xs.map fun n => OutLine.mk 2 ("- " ++ toString n)) := by
  have hnode : representData safeOrderedRegs (some false)
      (.vdict [(.vstr k, .vlist (xs.map .vint))]) =
      .ok (.mapping "tag:yaml.org,2002:map"
        [(.scalar "tag:yaml.org,2002:str" k,
          .sequence "tag:yaml.org,2002:seq"
            (xs.map fun n => Node.scalar "tag:yaml.org,2002:int" (toString n))
            false)]
        false) := by
    rw [representData]
    have hd : dispatchRep safeOrderedRegs TypeKey.tDict =
        some .represent_dict := by decide
    simp only [typeKeyOf]
    rw [hd]
    have hsort : trySortPairs [(.vstr k, .vlist (xs.map .vint))] =
        [(.vstr k, .vlist (xs.map .vint))] := by
      simp [trySortPairs, allIntKeys, allStrKeys, List.insertionSort,
        List.orderedInsert]
    rw [hsort]
    rw [representPairs]
    have hk : representData safeOrderedRegs (some false) (.vstr k) =
        .ok (.scalar "tag:yaml.org,2002:str" k) := by
      rw [representData]
      have : dispatchRep safeOrderedRegs TypeKey.tStr =
          some .represent_str := by decide
      simp only [typeKeyOf]
      rw [this]
    have hv : representData safeOrderedRegs (some false)
        (.vlist (xs.map .vint)) =
        .ok (.sequence "tag:yaml.org,2002:seq"
          (xs.map fun n => Node.scalar "tag:yaml.org,2002:int" (toString n))
          false) := by
      rw [representData]
      have : dispatchRep safeOrderedRegs TypeKey.tList =
          some .represent_list := by decide
      simp only [typeKeyOf]
      rw [this, representSeq_ints, exceptBind_ok]
      simp [flowFor]
    simp [representPairs, hk, hv, exceptBind_ok, flowFor, Node.isScalar]
  have hmapnonempty : (xs.map fun n =>
      Node.scalar "tag:yaml.org,2002:int" (toString n)).isEmpty = false := by
    cases xs with
    | nil => exact absurd rfl hxs
    | cons a l => rfl
  refine ⟨?_, ?_, ?_⟩
  · simp [yamlDumpNode, regsOf, indentedSafeRegs_eq_safeOrderedRegs]
  · rw [dumpLines, yamlDumpNode]
    simp only [regsOf, extraIndentOf]
    rw [hnode]
    simp only [Except.map]
    rw [blockLines]
    simp [mapPairsLines, hmapnonempty, seqItemsLines_scalars]
  · rw [dumpLines, yamlDumpNode]
    simp only [regsOf, extraIndentOf]
    rw [indentedSafeRegs_eq_safeOrderedRegs, hnode]
    simp only [Except.map]
    rw [blockLines]
    simp [mapPairsLines, hmapnonempty, seqItemsLines_scalars]

/-- C7 witness: the document a maps-to 1,2 at concrete inputs; the item
lines sit at column 0 under the safe dumper and column 2 under the
indented one. -/
theorem c7_indented_safe_indents_one_extra_level_witness :
    ([1, 2] : List Int) ≠ [] ∧
    dumpLines .SafeOrderedDumper (some false)
      (.vdict [(.vstr "a", .vlist [.vint 1, .vint 2])]) =
      .ok [OutLine.mk 0 "a:", OutLine.mk 0 "- 1", OutLine.mk 0 "- 2"] ∧
    dumpLines .IndentedSafeOrderedDumper (some false)
      (.vdict [(.vstr "a", .vlist [.vint 1, .vint 2])]) =
      .ok [OutLine.mk 0 "a:", OutLine.mk 2 "- 1", OutLine.mk 2 "- 2"] := by
  have h := c7_indented_safe_indents_one_extra_level "a" [1, 2] (by decide)
  refine ⟨by decide, ?_, ?_⟩
  · have := h.2.1
    simpa using this
  · have := h.2.2
    simpa using this

/-- C8: `get_dumper` answers each of the three canonical dumper names with
the corresponding class, and every other name with `none` (the `.get`
not-found signal surfaced to the caller), never a silent substitute. -/
theorem c8_get_dumper_three_names_else_none :
    get_dumper "OrderedDumper" = some .OrderedDumper ∧
    get_dumper "SafeOrderedDumper" = some .SafeOrderedDumper ∧
    get_dumper "IndentedSafeOrderedDumper" = some .IndentedSafeOrderedDumper ∧
    ∀ name : String, name ≠ "OrderedDumper" → name ≠ "SafeOrderedDumper" →
      name ≠ "IndentedSafeOrderedDumper" → get_dumper name = none := by
  refine ⟨by decide, by decide, by decide, fun name h1 h2 h3 => ?_⟩
  simp [get_dumper, h1, h2, h3]

/-- C8 witness: an unknown name yields the not-found signal. -/
theorem c8_get_dumper_three_names_else_none_witness :
    get_dumper "NoSuchDumper" = none :=
  c8_get_dumper_three_names_else_none.2.2.2 "NoSuchDumper"
    (by decide) (by decide) (by decide)

/-- C9 counterexample: the classic self-referential list (a list whose only
element is itself) is represented successfully — with two units of descent
fuel the memo turns the self-reference into an alias to the list's own
anchor — instead of the dump raising a cycle error; no cycle check rejects
the document before descent. -/
theorem c9_counterexample_self_referential_list_dumps :
    reprG [(0, .hlist [0])] 2 [] 0 = some (.gseq 0 [.galias 0], [0]) := by
  simp [reprG, reprGList, lookupHeap]

/-- C9 (amended): a document value that contains itself, directly or
through a second object, does not raise and does not recurse unboundedly:
the representer's memo of already-represented objects turns the
re-encounter into an alias node and the dump returns output. -/
theorem c9_self_reference_becomes_alias (i j : Nat) (h : i ≠ j) :
    reprG [(i, .hlist [i])] 2 [] i = some (.gseq i [.galias i], [i]) ∧
    reprG [(i, .hlist [j]), (j, .hlist [i])] 3 [] i =
      some (.gseq i [.gseq j [.galias i]], [j, i]) := by
  constructor
  · simp [reprG, reprGList, lookupHeap]
  · simp [reprG, reprGList, lookupHeap, h, Ne.symm h]

/-- C9 witness: the amended theorem at the two-object indirect cycle with
ids 0 and 1. -/
theorem c9_self_reference_becomes_alias_witness :
    reprG [(0, .hlist [1]), (1, .hlist [0])] 3 [] 0 =
      some (.gseq 0 [.gseq 1 [.galias 0]], [1, 0]) :=
  (c9_self_reference_becomes_alias 0 1 (by decide)).2

/-- C10: comparing an attribute-value set with None yields False rather
than raising or deferring to the base class; comparing it with itself
yields True; and comparing it with any container operand — another
attribute-value set, a plain list or a plain tuple — yields True exactly
when the unordered element sets coincide. -/
theorem c10_avs_eq_none_false_self_true_set_semantics
    {α : Type} [DecidableEq α] (s es : List α) :
    avs_eq s .pyNone = false ∧
    avs_eq s (.avset s) = true ∧
    (avs_eq s (.avset es) = true ↔ s.toFinset = es.toFinset) ∧
    (avs_eq s (.plainList es) = true ↔ s.toFinset = es.toFinset) ∧
    (avs_eq s (.plainTuple es) = true ↔ s.toFinset = es.toFinset) := by
  refine ⟨rfl, ?_, ?_, ?_, ?_⟩ <;> simp [avs_eq, PyOperand.elemsOf]
